import Mathlib

/-!
Verification of the LuaSwift CLua trampoline (Sources/CLua/extensions.c).

The VM stack is modelled as a `List LuaValue` with the bottom of the stack at
the head of the list, so that Lua's 1-based positive indices address the list
directly and `lua_gettop` is the list length.  The Lua C API primitives used by
extensions.c (`lua_pop`, `lua_gettop`, `lua_tointeger`, `lua_type`,
`lua_insert`, `lua_rotate`, push operations) are translated from their
documented stack effects; the trampoline code itself (`handleClosureResult`,
`continuation`, `luaswift_callclosurewrapper`, `luaswift_do_for_pairs`,
`luaswift_setgen`, `luaswift_setinc`) is translated line by line from
extensions.c.
-/

namespace LuaSwift

/-- Lua values, by type tag.  Only the structure the trampoline inspects is
needed: type tags and integer payloads.  `userdata` is a full userdata (tag
`LUA_TUSERDATA`), distinct from `lightuserdata` (tag `LUA_TLIGHTUSERDATA`). -/
inductive LuaValue where
  | nil
  | boolean (b : Bool)
  | lightuserdata
  | integer (n : Int)
  | str (s : String)
  | table
  | function
  | userdata
  | thread
deriving DecidableEq

abbrev Stack := List LuaValue

/-- Lua type tags, from lua.h. -/
def LUA_TNIL : Int := 0
def LUA_TBOOLEAN : Int := 1
def LUA_TLIGHTUSERDATA : Int := 2
def LUA_TNUMBER : Int := 3
def LUA_TSTRING : Int := 4
def LUA_TTABLE : Int := 5
def LUA_TFUNCTION : Int := 6
def LUA_TUSERDATA : Int := 7
def LUA_TTHREAD : Int := 8

/-- Lua thread status codes, from lua.h. -/
def LUA_OK : Int := 0
def LUA_YIELD_STATUS : Int := 1
def LUA_ERRRUN : Int := 2

/-- Result Protocol sentinels, from Sources/CLua/include/CLua.h lines 191-194. -/
def LUASWIFT_CALLCLOSURE_ERROR : Int := -2
def LUASWIFT_CALLCLOSURE_PCALLK : Int := -3
def LUASWIFT_CALLCLOSURE_CALLK : Int := -4
def LUASWIFT_CALLCLOSURE_YIELD : Int := -5

def LuaValue.typeTag : LuaValue → Int
  | .nil => LUA_TNIL
  | .boolean _ => LUA_TBOOLEAN
  | .lightuserdata => LUA_TLIGHTUSERDATA
  | .integer _ => LUA_TNUMBER
  | .str _ => LUA_TSTRING
  | .table => LUA_TTABLE
  | .function => LUA_TFUNCTION
  | .userdata => LUA_TUSERDATA
  | .thread => LUA_TTHREAD

/-- Number of stack entries (lua_gettop). -/
def lua_gettop (s : Stack) : Int := (s.length : Int)

/-- Convert an acceptable index to an absolute one (lua_absindex): negative
indices count down from the top. -/
def lua_absindex (s : Stack) (i : Int) : Int :=
  if i < 0 then lua_gettop s + i + 1 else i

/-- Read the value at a stack index; out-of-range indices read as no value,
which the trampoline only ever observes through `lua_type`. -/
def stackGet (s : Stack) (i : Int) : LuaValue :=
  let j := lua_absindex s i
  if 1 ≤ j ∧ j ≤ lua_gettop s then s.getD (j.toNat - 1) LuaValue.nil
  else LuaValue.nil

/-- Type tag of the value at an index (lua_type). -/
def lua_type (s : Stack) (i : Int) : Int := (stackGet s i).typeTag

/-- Integer value at an index (lua_tointeger); non-integers read as 0, which is
what lua_tointegerx reports for an inconvertible value.  The trampoline only
applies this to slots its protocol requires to hold genuine integers. -/
def lua_tointeger (s : Stack) (i : Int) : Int :=
  match stackGet s i with
  | .integer n => n
  | _ => 0

/-- Pop n values from the top (lua_pop). -/
def lua_pop (s : Stack) (n : Nat) : Stack := s.take (s.length - n)

/-- Push a value on the top. -/
def lua_push (s : Stack) (v : LuaValue) : Stack := s ++ [v]

/-- Rotate the stack segment between index `idx` and the top by `n` positions
toward the top (lua_rotate with a non-negative n): the top `n` values of the
segment move to its bottom. -/
def lua_rotate (s : Stack) (idx : Int) (n : Nat) : Stack :=
  let j := (lua_absindex s idx).toNat
  let pre := s.take (j - 1)
  let seg := s.drop (j - 1)
  pre ++ (seg.drop (seg.length - n) ++ seg.take (seg.length - n))

/-- Move the top value into position `idx` (lua_insert = lua_rotate by 1). -/
def lua_insert (s : Stack) (idx : Int) : Stack := lua_rotate s idx 1

/-- The VM-level action `handleClosureResult` decides on: raise, plain call,
protected call, resumable or plain yield, or a normal return.  Each suspending
action carries the stack at the moment the VM primitive is invoked and the
`lua_KContext` passed to it. -/
inductive TrampAction where
  | raiseError
  | doCallk (nargs nret ctx : Int) (s : Stack)
  | doPcallk (nargs nret msgh ctx : Int) (s : Stack)
  | doYieldk (nresults ctx : Int) (s : Stack)
  | doPlainYield (nresults : Int) (s : Stack)
  | retNormal (code : Int)
deriving DecidableEq

/-- Translation of handleClosureResult, extensions.c lines 32-74.  The VM
primitives (lua_error, lua_callk, lua_pcallk, lua_yieldk, lua_yield) are
external, so this function returns the action together with the fully prepared
stack; the dispatch loop below interprets the action. -/
def handleClosureResult (s : Stack) (ret : Int) : TrampAction :=
  if ret = LUASWIFT_CALLCLOSURE_ERROR then
    .raiseError
  else if ret = LUASWIFT_CALLCLOSURE_CALLK then
    let nargs := lua_tointeger s (-2)
    let nret := lua_tointeger s (-1)
    let s1 := lua_pop s 2
    let ctx := lua_gettop s1 - nargs - 1
    .doCallk nargs nret ctx s1
  else if ret = LUASWIFT_CALLCLOSURE_PCALLK then
    let nargs := lua_tointeger s (-2)
    let nret := lua_tointeger s (-1)
    let s1 := lua_pop s 2
    let continuationIndex := lua_gettop s1 - nargs - 1
    let msgh := if lua_type s1 (continuationIndex - 1) = LUA_TFUNCTION
                then continuationIndex - 1 else 0
    .doPcallk nargs nret msgh continuationIndex s1
  else if ret = LUASWIFT_CALLCLOSURE_YIELD then
    let nresults := lua_tointeger s (-1)
    let s1 := lua_pop s 1
    if lua_type s1 (-1) = LUA_TUSERDATA then
      let s2 := lua_insert (lua_push s1 .nil) (-2)
      let continuationIndex := lua_gettop s2 - nresults
      let s3 := lua_rotate s2 (continuationIndex - 1) 2
      .doYieldk nresults continuationIndex s3
    else
      .doPlainYield nresults (lua_pop s1 1)
  else
    .retNormal ret

/-- Observable VM-level events emitted by one trampoline dispatch, in order:
the trampoline raising (lua_error), invoking a VM primitive, or invoking the
foreign closure's continuation half with (contextIndex, status). -/
inductive VMEvent where
  | raiseError
  | callk (nargs nret ctx : Int)
  | pcallk (nargs nret msgh ctx : Int)
  | yieldk (nresults ctx : Int)
  | plainYield (nresults : Int)
  | contInvoke (ctx status : Int)
deriving DecidableEq

/-- How one native dispatch frame ends. -/
inductive RunResult where
  | ret (n : Int)
  | raised
  | plainYielded
  | calleeRaised
  | suspendedNoResume
  | abortedNullCall
  | outOfFuel
deriving DecidableEq

/-- Behaviour of the external VM for one suspending operation requested by the
trampoline.  Modelled from the Lua C API contract (the callee and the VM are
outside this repository): a lua_callk or lua_pcallk target can complete
synchronously, a protected call can catch an error and return its status
synchronously, the operation can suspend and later be resumed (the VM then
re-enters the registered continuation with a status), an unprotected callee can
raise (unwinding this native frame), or a suspension may never be resumed.
`stackAfter`/`stackAtResume` is the VM stack at the moment the continuation is
entered. -/
inductive OpOutcome where
  | syncComplete (stackAfter : Stack)
  | syncCaught (status : Int) (stackAfter : Stack)
  | suspends (status : Int) (stackAtResume : Stack)
  | calleeRaises
  | noResume

/-- One dispatch step, resolved against the VM's behaviour: either the frame
ends (with the events it emitted), or the continuation entry at `ctx` runs next
with `status`. -/
inductive StepPlan where
  | term (r : RunResult) (evs : List VMEvent)
  | resume (ev : VMEvent) (ctx status : Int) (stack : Stack)

/-- Resolve one closure return code against the VM behaviour `oracle`:
`handleClosureResult` picks the VM action, then the Lua C API contract decides
whether `continuation` (extensions.c lines 93-104) is entered and with which
status.  A synchronous lua_callk completion enters it with LUA_OK (line 42); a
synchronous lua_pcallk return enters it with the protected call's status (line
54); a resumed lua_yieldk / lua_callk / lua_pcallk enters it with the status
the VM supplies.  lua_yieldk never returns synchronously, and lua_callk never
returns an error status. -/
def planStep (oracle : Nat → OpOutcome) (oi : Nat) (s : Stack) (ret : Int) : StepPlan :=
  match handleClosureResult s ret with
  | .raiseError => .term .raised [.raiseError]
  | .retNormal n => .term (.ret n) []
  | .doPlainYield n _ => .term .plainYielded [.plainYield n]
  | .doCallk nargs nret ctx _ =>
    let ev := VMEvent.callk nargs nret ctx
    match oracle oi with
    | .syncComplete s1 => .resume ev ctx LUA_OK s1
    | .suspends st s1 => .resume ev ctx st s1
    | .syncCaught _ _ => .term .calleeRaised [ev]
    | .calleeRaises => .term .calleeRaised [ev]
    | .noResume => .term .suspendedNoResume [ev]
  | .doPcallk nargs nret msgh ctx _ =>
    let ev := VMEvent.pcallk nargs nret msgh ctx
    match oracle oi with
    | .syncComplete s1 => .resume ev ctx LUA_OK s1
    | .syncCaught st s1 => .resume ev ctx st s1
    | .suspends st s1 => .resume ev ctx st s1
    | .calleeRaises => .term .calleeRaised [ev]
    | .noResume => .term .suspendedNoResume [ev]
  | .doYieldk n ctx _ =>
    let ev := VMEvent.yieldk n ctx
    match oracle oi with
    | .suspends st s1 => .resume ev ctx st s1
    | _ => .term .suspendedNoResume [ev]

/-- An external (Swift-side) lua_CFunction: transforms the stack and returns a
result code.  Used for LuaClosureWrapper.callClosure and callContinuation. -/
abbrev SwiftFn := Stack → Int × Stack

/-- Stack at continuation entry: continuation(L, status, ctx) pushes the
decoded integer continuationIndex and then the status (extensions.c lines
99-101) before invoking the registered callContinuation. -/
def contEntry (s : Stack) (ctx status : Int) : Stack :=
  s ++ [LuaValue.integer ctx, LuaValue.integer status]

/-- The dispatch loop of the trampoline: handleClosureResult interleaved with
continuation (extensions.c lines 32-74 and 93-104).  `contReg` is the Registry
entry for LuaClosureWrapper.callContinuation (keyed by
luaswift_continuation_regkey); `none` models a Registry miss, in which case the
NULL function pointer obtained from lua_tocfunction is invoked, an immediate
trap (modelled as `abortedNullCall`).  `ci` counts continuation invocations (an
external C function may behave differently per call), `oi` indexes the VM
behaviour oracle, and `fuel` bounds the chained-suspension depth. -/
def runDispatch (contReg : Option (Nat → SwiftFn)) (oracle : Nat → OpOutcome) :
    Nat → Nat → Nat → Int → Stack → RunResult × List VMEvent
  | 0, _, _, _, _ => (.outOfFuel, [])
  | fuel+1, ci, oi, ret, s =>
    match planStep oracle oi s ret with
    | .term r evs => (r, evs)
    | .resume ev ctx status s1 =>
      match contReg with
      | none => (.abortedNullCall, [ev])
      | some contFns =>
        let p := contFns ci (contEntry s1 ctx status)
        let r := runDispatch contReg oracle fuel (ci+1) (oi+1) p.1 p.2
        (r.1, ev :: .contInvoke ctx status :: r.2)

/-- Translation of luaswift_callclosurewrapper, extensions.c lines 76-86:
resolve LuaClosureWrapper.callClosure from the Registry (keyed by the
luaswift_callclosurewrapper function pointer), invoke it, and dispatch its
result.  A Registry miss (`none`) makes lua_tocfunction yield NULL and the
immediate call of that NULL pointer traps before any VM operation runs. -/
def luaswift_callclosurewrapper (closureReg : Option SwiftFn)
    (contReg : Option (Nat → SwiftFn)) (oracle : Nat → OpOutcome)
    (fuel : Nat) (s : Stack) : RunResult × List VMEvent :=
  match closureReg with
  | none => (.abortedNullCall, [])
  | some callClosure =>
    let p := callClosure s
    runDispatch contReg oracle fuel 0 0 p.1 p.2

/-- Event classifier: the trampoline invoking a suspending VM primitive
(lua_callk, lua_pcallk or lua_yieldk). -/
def VMEvent.isSuspendOp : VMEvent → Bool
  | .callk _ _ _ => true
  | .pcallk _ _ _ _ => true
  | .yieldk _ _ => true
  | _ => false

/-- Event classifier: the trampoline invoking the closure's continuation
half. -/
def VMEvent.isContInvoke : VMEvent → Bool
  | .contInvoke _ _ => true
  | _ => false

/-- Number of suspending VM primitives invoked in a trace. -/
def suspendCount (evs : List VMEvent) : Nat := evs.countP VMEvent.isSuspendOp

/-- Number of continuation invocations in a trace. -/
def contInvokeCount (evs : List VMEvent) : Nat := evs.countP VMEvent.isContInvoke

/-- The three Lua version classes extensions.c distinguishes with
LUA_VERSION_NUM preprocessor conditionals: before 5.4, exactly 5.4, and after
5.4. -/
inductive LuaVer where
  | pre54
  | v54
  | post54
deriving DecidableEq

/-- Garbage-collector tuning state of the VM: the active collector mode and
the tuning parameters the shims touch.  Modelled from the Lua C API contract
(lua_gc lives outside this repository): each lua_gc tuning call reduces to
setting one of these fields or switching `mode`. -/
structure GCState where
  mode : Int
  minormul : Int
  majormul : Int
  minorMajorMul : Int
  majorMinorMul : Int
  pause : Int
  stepmul : Int
  stepsize : Int
deriving DecidableEq

/-- Mode markers, from CLua.h lines 216-222: on Lua <= 5.4 they are defined as
10 and 11, which coincide with LUA_GCGEN and LUA_GCINC of Lua 5.4+. -/
def LUASWIFT_GCGEN : Int := 10
def LUASWIFT_GCINC : Int := 11

/-- Modelled from the spec: LUASWIFT_GCUNSUPPORTED is the distinct
"unsupported" marker returned for a GC tuning request the active VM version
cannot express.  Its definition is not under src/ (only its uses in
extensions.c are); any value distinct from the lua_gc mode results serves. -/
def LUASWIFT_GCUNSUPPORTED : Int := -1

/-- Translation of luaswift_setgen, extensions.c lines 173-202.  On post-5.4,
lua_gc(L, LUA_GCGEN) switches to generational mode returning the previous
mode, and each lua_gc(L, LUA_GCPARAM, param, value) call sets one parameter;
on 5.4, lua_gc(L, LUA_GCGEN, minormul, majormul) returns the previous mode,
updates each parameter only when nonzero, and switches to generational mode
(per the Lua 5.4 lua_gc contract); before 5.4 there is no generational
collector. -/
def luaswift_setgen (ver : LuaVer) (g : GCState)
    (minormul majormul minorMajorMul majorMinorMul : Int) : Int × GCState :=
  match ver with
  | .post54 =>
    if majormul ≠ 0 then (LUASWIFT_GCUNSUPPORTED, g)
    else
      let prev := g.mode
      let g1 := { g with mode := LUASWIFT_GCGEN }
      let g2 := if minormul ≠ 0 then { g1 with minormul := minormul } else g1
      let g3 := if minorMajorMul ≠ 0 then { g2 with minorMajorMul := minorMajorMul } else g2
      let g4 := if majorMinorMul ≠ 0 then { g3 with majorMinorMul := majorMinorMul } else g3
      (prev, g4)
  | .v54 =>
    if minorMajorMul ≠ 0 ∨ majorMinorMul ≠ 0 then (LUASWIFT_GCUNSUPPORTED, g)
    else
      let g1 := if minormul ≠ 0 then { g with minormul := minormul } else g
      let g2 := if majormul ≠ 0 then { g1 with majormul := majormul } else g1
      (g.mode, { g2 with mode := LUASWIFT_GCGEN })
  | .pre54 => (LUASWIFT_GCUNSUPPORTED, g)

/-- Translation of luaswift_setinc, extensions.c lines 204-231.  On post-5.4,
lua_gc(L, LUA_GCINC) switches to incremental mode returning the previous mode
and each parameter is set with lua_gc(L, LUA_GCPARAM, ...) when nonzero; on
5.4, lua_gc(L, LUA_GCINC, pause, stepmul, stepsize) returns the previous mode,
updates each nonzero parameter and switches to incremental mode; before 5.4
the collector is always incremental, pause and stepmul are set individually
when nonzero via LUA_GCSETPAUSE / LUA_GCSETSTEPMUL, and stepsize is ignored
(the source notes Lua 5.3 has no way to set it). -/
def luaswift_setinc (ver : LuaVer) (g : GCState)
    (pause stepmul stepsize : Int) : Int × GCState :=
  match ver with
  | .post54 =>
    let prev := g.mode
    let g1 := { g with mode := LUASWIFT_GCINC }
    let g2 := if pause ≠ 0 then { g1 with pause := pause } else g1
    let g3 := if stepmul ≠ 0 then { g2 with stepmul := stepmul } else g2
    let g4 := if stepsize ≠ 0 then { g3 with stepsize := stepsize } else g3
    (prev, g4)
  | .v54 =>
    let g1 := if pause ≠ 0 then { g with pause := pause } else g
    let g2 := if stepmul ≠ 0 then { g1 with stepmul := stepmul } else g1
    let g3 := if stepsize ≠ 0 then { g2 with stepsize := stepsize } else g2
    (g.mode, { g3 with mode := LUASWIFT_GCINC })
  | .pre54 =>
    let g1 := if pause ≠ 0 then { g with pause := pause } else g
    let g2 := if stepmul ≠ 0 then { g1 with stepmul := stepmul } else g1
    (LUASWIFT_GCINC, g2)

/-- How the generic iteration loop ends. -/
inductive ForPairsResult where
  | done
  | raisedError
  | iterRaised
  | outOfFuel
deriving DecidableEq

/-- Translation of luaswift_do_for_pairs, extensions.c lines 235-268.  The
iterator function and the per-iteration closure are external: `iterfn state k`
is the unprotected lua_call of the iterator with (state, k), with `none`
modelling the callee raising (which unwinds this frame, nothing catches it
here); `block i k v` is the i-th invocation of callUnmanagedClosure on the
(key, value) pair, returning the result code and the key it left in stack slot
4.  The returned list records the pairs delivered to the closure, in order. -/
def luaswift_do_for_pairs
    (iterfn : LuaValue → LuaValue → Option (LuaValue × LuaValue))
    (block : Nat → LuaValue → LuaValue → Int × LuaValue) :
    Nat → Nat → LuaValue → LuaValue → ForPairsResult × List (LuaValue × LuaValue)
  | 0, _, _, _ => (.outOfFuel, [])
  | fuel+1, i, state, k =>
    match iterfn state k with
    | none => (.iterRaised, [])
    | some (k1, v) =>
      if k1 = LuaValue.nil then (.done, [])
      else
        let p := block i k1 v
        if p.1 = 1 then
          let r := luaswift_do_for_pairs iterfn block fuel (i+1) state p.2
          (r.1, (k1, v) :: r.2)
        else if p.1 = 0 then (.done, [(k1, v)])
        else if p.1 = LUASWIFT_CALLCLOSURE_ERROR then (.raisedError, [(k1, v)])
        else
          let r := luaswift_do_for_pairs iterfn block fuel (i+1) state p.2
          (r.1, (k1, v) :: r.2)

/-- The iterator of the spec's generic-iteration example: yields (1, "a"),
then (2, "b"), then nil. -/
def demoIter : LuaValue → LuaValue → Option (LuaValue × LuaValue) := fun _ k =>
  match k with
  | .nil => some (.integer 1, .str "a")
  | .integer 1 => some (.integer 2, .str "b")
  | _ => some (.nil, .nil)

/-- The per-iteration closure of the spec's example: stops (result 0) on the
first pair. -/
def demoBlock : Nat → LuaValue → LuaValue → Int × LuaValue := fun _ k _ => (0, k)

theorem stackGet_eq_getD (l : Stack) (i : Int) (h1 : 1 ≤ i) (h2 : i ≤ (l.length : Int)) :
    stackGet l i = l.getD (i.toNat - 1) LuaValue.nil := by
  have habs : lua_absindex l i = i := by
    simp only [lua_absindex]
    rw [if_neg (by omega)]
  simp only [stackGet, habs, lua_gettop]
  rw [if_pos ⟨h1, h2⟩]

theorem stackGet_neg (l : Stack) (k : Nat) (h1 : 1 ≤ k) (h2 : k ≤ l.length) :
    stackGet l (-(k : Int)) = l.getD (l.length - k) LuaValue.nil := by
  have habs : lua_absindex l (-(k : Int)) = (l.length : Int) - k + 1 := by
    simp only [lua_absindex, lua_gettop]
    rw [if_pos (by omega)]
    ring
  simp only [stackGet, habs, lua_gettop]
  rw [if_pos (by refine ⟨by omega, by omega⟩)]
  congr 1
  omega

theorem stackGet_top (l : Stack) (x : LuaValue) : stackGet (l ++ [x]) (-1) = x := by
  have h := stackGet_neg (l ++ [x]) 1 (le_refl 1) (by simp)
  have harg : (l ++ [x]).length - 1 = l.length := by simp
  rw [harg] at h
  have h1 : ((1 : Nat) : Int) = (1 : Int) := by norm_num
  rw [h1] at h
  rw [show (-1 : Int) = -(1 : Int) by norm_num, h,
    List.getD_append_right l [x] _ _ (le_refl _)]
  simp [List.getD]

theorem stackGet_sub_top (l : Stack) (x y : LuaValue) : stackGet (l ++ [x, y]) (-2) = x := by
  have h := stackGet_neg (l ++ [x, y]) 2 (by omega) (by simp)
  have harg : (l ++ [x, y]).length - 2 = l.length := by simp
  rw [harg] at h
  have h2 : ((2 : Nat) : Int) = (2 : Int) := by norm_num
  rw [h2] at h
  rw [show (-2 : Int) = -(2 : Int) by norm_num, h,
    List.getD_append_right l [x, y] _ _ (le_refl _)]
  simp [List.getD]

theorem stackGet_pos (l1 : Stack) (x : LuaValue) (l2 : Stack) :
    stackGet (l1 ++ x :: l2) ((l1.length : Int) + 1) = x := by
  rw [stackGet_eq_getD _ _ (by omega) (by simp)]
  have h : ((l1.length : Int) + 1).toNat - 1 = l1.length := by omega
  rw [h, List.getD_append_right l1 (x :: l2) _ _ (le_refl _)]
  simp [List.getD]

theorem lua_tointeger_top (l : Stack) (n : Int) :
    lua_tointeger (l ++ [LuaValue.integer n]) (-1) = n := by
  unfold lua_tointeger
  rw [stackGet_top]

theorem lua_tointeger_sub_top (l : Stack) (n : Int) (y : LuaValue) :
    lua_tointeger (l ++ [LuaValue.integer n, y]) (-2) = n := by
  unfold lua_tointeger
  rw [stackGet_sub_top]

theorem lua_pop_one (l : Stack) (x : LuaValue) : lua_pop (l ++ [x]) 1 = l := by
  unfold lua_pop
  rw [show (l ++ [x]).length - 1 = l.length by simp]
  exact List.take_left' rfl

theorem lua_pop_two (l : Stack) (x y : LuaValue) : lua_pop (l ++ [x, y]) 2 = l := by
  unfold lua_pop
  rw [show (l ++ [x, y]).length - 2 = l.length by simp]
  exact List.take_left' rfl

theorem lua_insert_swap (l : Stack) (a b : LuaValue) :
    lua_insert (l ++ [a, b]) (-2) = l ++ [b, a] := by
  simp only [lua_insert, lua_rotate, lua_absindex, lua_gettop]
  rw [if_pos (by omega)]
  have hj : (((l ++ [a, b]).length : Int) + -2 + 1).toNat = l.length + 1 := by
    simp only [List.length_append, List.length_cons, List.length_nil]
    omega
  rw [hj]
  have h1 : l.length + 1 - 1 = l.length := by omega
  rw [h1, List.take_left' rfl, List.drop_left' rfl]
  simp

theorem lua_rotate_last_two (l1 l2 : Stack) (p q : LuaValue) :
    lua_rotate (l1 ++ (l2 ++ [p, q])) ((l1.length : Int) + 1) 2 = l1 ++ ([p, q] ++ l2) := by
  simp only [lua_rotate, lua_absindex, lua_gettop]
  rw [if_neg (by omega)]
  have hj : ((l1.length : Int) + 1).toNat = l1.length + 1 := by omega
  rw [hj]
  have h1 : l1.length + 1 - 1 = l1.length := by omega
  rw [h1, List.take_left' rfl, List.drop_left' rfl]
  have hlen : (l2 ++ [p, q]).length - 2 = l2.length := by simp
  rw [hlen, List.drop_left' rfl, List.take_left' rfl]

theorem hcr_error_eq (s : Stack) :
    handleClosureResult s LUASWIFT_CALLCLOSURE_ERROR = .raiseError := rfl

theorem hcr_callk_eq (s : Stack) :
    handleClosureResult s LUASWIFT_CALLCLOSURE_CALLK =
      .doCallk (lua_tointeger s (-2)) (lua_tointeger s (-1))
        (lua_gettop (lua_pop s 2) - lua_tointeger s (-2) - 1) (lua_pop s 2) := rfl

theorem hcr_pcallk_eq (s : Stack) :
    handleClosureResult s LUASWIFT_CALLCLOSURE_PCALLK =
      .doPcallk (lua_tointeger s (-2)) (lua_tointeger s (-1))
        (if lua_type (lua_pop s 2) (lua_gettop (lua_pop s 2) - lua_tointeger s (-2) - 1 - 1)
              = LUA_TFUNCTION
         then lua_gettop (lua_pop s 2) - lua_tointeger s (-2) - 1 - 1 else 0)
        (lua_gettop (lua_pop s 2) - lua_tointeger s (-2) - 1) (lua_pop s 2) := rfl

theorem hcr_yield_eq (s : Stack) :
    handleClosureResult s LUASWIFT_CALLCLOSURE_YIELD =
      (if lua_type (lua_pop s 1) (-1) = LUA_TUSERDATA then
        .doYieldk (lua_tointeger s (-1))
          (lua_gettop (lua_insert (lua_push (lua_pop s 1) .nil) (-2)) - lua_tointeger s (-1))
          (lua_rotate (lua_insert (lua_push (lua_pop s 1) .nil) (-2))
            (lua_gettop (lua_insert (lua_push (lua_pop s 1) .nil) (-2))
              - lua_tointeger s (-1) - 1) 2)
      else
        .doPlainYield (lua_tointeger s (-1)) (lua_pop (lua_pop s 1) 1)) := rfl

theorem hcr_return_eq (s : Stack) (ret : Int)
    (h2 : ret ≠ LUASWIFT_CALLCLOSURE_ERROR) (h4 : ret ≠ LUASWIFT_CALLCLOSURE_CALLK)
    (h3 : ret ≠ LUASWIFT_CALLCLOSURE_PCALLK) (h5 : ret ≠ LUASWIFT_CALLCLOSURE_YIELD) :
    handleClosureResult s ret = .retNormal ret := by
  unfold handleClosureResult
  rw [if_neg h2, if_neg h4, if_neg h3, if_neg h5]

theorem hcr_return_of_nonneg (s : Stack) (ret : Int) (h : 0 ≤ ret) :
    handleClosureResult s ret = .retNormal ret := by
  refine hcr_return_eq s ret ?_ ?_ ?_ ?_ <;>
    simp only [LUASWIFT_CALLCLOSURE_ERROR, LUASWIFT_CALLCLOSURE_CALLK,
      LUASWIFT_CALLCLOSURE_PCALLK, LUASWIFT_CALLCLOSURE_YIELD] <;> omega

theorem hcr_callk_shape (base : Stack) (func : LuaValue) (args : Stack)
    (nargs nret : Int) (hargs : (args.length : Int) = nargs) :
    handleClosureResult
        ((base ++ func :: args) ++ [LuaValue.integer nargs, LuaValue.integer nret])
        LUASWIFT_CALLCLOSURE_CALLK
      = .doCallk nargs nret (base.length : Int) (base ++ func :: args) := by
  rw [hcr_callk_eq, lua_tointeger_sub_top, lua_pop_two]
  rw [show (base ++ func :: args) ++ [LuaValue.integer nargs, LuaValue.integer nret]
        = ((base ++ func :: args) ++ [LuaValue.integer nargs]) ++ [LuaValue.integer nret]
      by simp]
  rw [lua_tointeger_top]
  have hctx : lua_gettop (base ++ func :: args) - nargs - 1 = (base.length : Int) := by
    simp only [lua_gettop, List.length_append, List.length_cons]
    push_cast
    omega
  rw [hctx]

theorem hcr_pcallk_shape (base : Stack) (m c func : LuaValue) (args : Stack)
    (nargs nret : Int) (hargs : (args.length : Int) = nargs) :
    handleClosureResult
        ((base ++ [m, c] ++ func :: args) ++ [LuaValue.integer nargs, LuaValue.integer nret])
        LUASWIFT_CALLCLOSURE_PCALLK
      = .doPcallk nargs nret
          (if m.typeTag = LUA_TFUNCTION then (base.length : Int) + 1 else 0)
          ((base.length : Int) + 2) (base ++ [m, c] ++ func :: args) := by
  rw [hcr_pcallk_eq, lua_tointeger_sub_top, lua_pop_two]
  rw [show (base ++ [m, c] ++ func :: args) ++ [LuaValue.integer nargs, LuaValue.integer nret]
        = ((base ++ [m, c] ++ func :: args) ++ [LuaValue.integer nargs])
            ++ [LuaValue.integer nret]
      by simp]
  rw [lua_tointeger_top]
  have hctx : lua_gettop (base ++ [m, c] ++ func :: args) - nargs - 1
      = (base.length : Int) + 2 := by
    simp only [lua_gettop, List.length_append, List.length_cons, List.length_nil]
    push_cast
    omega
  rw [hctx]
  have hm : lua_type (base ++ [m, c] ++ func :: args) ((base.length : Int) + 2 - 1)
      = m.typeTag := by
    unfold lua_type
    rw [show base ++ [m, c] ++ func :: args = base ++ m :: (c :: func :: args) by simp]
    rw [show (base.length : Int) + 2 - 1 = (base.length : Int) + 1 by ring]
    rw [stackGet_pos]
  rw [hm]
  rw [show (base.length : Int) + 2 - 1 = (base.length : Int) + 1 by ring]

theorem hcr_yield_ud_shape (base results : Stack) (c : LuaValue) (n : Nat)
    (hres : results.length = n) (hud : c.typeTag = LUA_TUSERDATA) :
    handleClosureResult ((base ++ results) ++ [c, LuaValue.integer n])
        LUASWIFT_CALLCLOSURE_YIELD
      = .doYieldk n ((base.length : Int) + 2) (base ++ ([LuaValue.nil, c] ++ results)) := by
  rw [hcr_yield_eq]
  rw [show (base ++ results) ++ [c, LuaValue.integer n]
        = ((base ++ results) ++ [c]) ++ [LuaValue.integer n] by simp]
  rw [lua_tointeger_top, lua_pop_one]
  have htype : lua_type ((base ++ results) ++ [c]) (-1) = c.typeTag := by
    unfold lua_type
    rw [stackGet_top]
  rw [htype, if_pos hud]
  rw [show lua_push ((base ++ results) ++ [c]) LuaValue.nil
        = (base ++ results) ++ [c, LuaValue.nil] by simp [lua_push]]
  rw [lua_insert_swap]
  have hins : (base ++ results) ++ [LuaValue.nil, c]
      = base ++ (results ++ [LuaValue.nil, c]) := by simp
  rw [hins]
  have htop : lua_gettop (base ++ (results ++ [LuaValue.nil, c])) - (n : Int)
      = (base.length : Int) + 2 := by
    simp only [lua_gettop, List.length_append, List.length_cons, List.length_nil, hres]
    push_cast
    omega
  rw [htop]
  rw [show (base.length : Int) + 2 - 1 = (base.length : Int) + 1 by ring]
  rw [lua_rotate_last_two]

theorem hcr_yield_plain_shape (base results : Stack) (c : LuaValue) (n : Int)
    (hud : c.typeTag ≠ LUA_TUSERDATA) :
    handleClosureResult ((base ++ results) ++ [c, LuaValue.integer n])
        LUASWIFT_CALLCLOSURE_YIELD
      = .doPlainYield n (base ++ results) := by
  rw [hcr_yield_eq]
  rw [show (base ++ results) ++ [c, LuaValue.integer n]
        = ((base ++ results) ++ [c]) ++ [LuaValue.integer n] by simp]
  rw [lua_tointeger_top, lua_pop_one]
  have htype : lua_type ((base ++ results) ++ [c]) (-1) = c.typeTag := by
    unfold lua_type
    rw [stackGet_top]
  rw [htype, if_neg hud, lua_pop_one]

theorem planStep_raise (oracle : Nat → OpOutcome) (oi : Nat) (s : Stack) (ret : Int)
    (h : handleClosureResult s ret = .raiseError) :
    planStep oracle oi s ret = .term .raised [.raiseError] := by
  simp only [planStep, h]

theorem planStep_ret (oracle : Nat → OpOutcome) (oi : Nat) (s : Stack) (ret n : Int)
    (h : handleClosureResult s ret = .retNormal n) :
    planStep oracle oi s ret = .term (.ret n) [] := by
  simp only [planStep, h]

theorem planStep_plain_yield (oracle : Nat → OpOutcome) (oi : Nat) (s : Stack) (ret n : Int)
    (sP : Stack) (h : handleClosureResult s ret = .doPlainYield n sP) :
    planStep oracle oi s ret = .term .plainYielded [.plainYield n] := by
  simp only [planStep, h]

theorem planStep_callk_sync (oracle : Nat → OpOutcome) (oi : Nat) (s : Stack) (ret : Int)
    (nargs nret ctx : Int) (sOp s1 : Stack)
    (h : handleClosureResult s ret = .doCallk nargs nret ctx sOp)
    (ho : oracle oi = .syncComplete s1) :
    planStep oracle oi s ret = .resume (.callk nargs nret ctx) ctx LUA_OK s1 := by
  simp only [planStep, h, ho]

theorem planStep_callk_suspends (oracle : Nat → OpOutcome) (oi : Nat) (s : Stack) (ret : Int)
    (nargs nret ctx st : Int) (sOp s1 : Stack)
    (h : handleClosureResult s ret = .doCallk nargs nret ctx sOp)
    (ho : oracle oi = .suspends st s1) :
    planStep oracle oi s ret = .resume (.callk nargs nret ctx) ctx st s1 := by
  simp only [planStep, h, ho]

theorem planStep_pcallk_sync (oracle : Nat → OpOutcome) (oi : Nat) (s : Stack) (ret : Int)
    (nargs nret msgh ctx : Int) (sOp s1 : Stack)
    (h : handleClosureResult s ret = .doPcallk nargs nret msgh ctx sOp)
    (ho : oracle oi = .syncComplete s1) :
    planStep oracle oi s ret = .resume (.pcallk nargs nret msgh ctx) ctx LUA_OK s1 := by
  simp only [planStep, h, ho]

theorem planStep_pcallk_caught (oracle : Nat → OpOutcome) (oi : Nat) (s : Stack) (ret : Int)
    (nargs nret msgh ctx st : Int) (sOp s1 : Stack)
    (h : handleClosureResult s ret = .doPcallk nargs nret msgh ctx sOp)
    (ho : oracle oi = .syncCaught st s1) :
    planStep oracle oi s ret = .resume (.pcallk nargs nret msgh ctx) ctx st s1 := by
  simp only [planStep, h, ho]

theorem planStep_yieldk_suspends (oracle : Nat → OpOutcome) (oi : Nat) (s : Stack) (ret : Int)
    (n ctx st : Int) (sOp s1 : Stack)
    (h : handleClosureResult s ret = .doYieldk n ctx sOp)
    (ho : oracle oi = .suspends st s1) :
    planStep oracle oi s ret = .resume (.yieldk n ctx) ctx st s1 := by
  simp only [planStep, h, ho]

theorem runDispatch_zero (contReg : Option (Nat → SwiftFn)) (oracle : Nat → OpOutcome)
    (ci oi : Nat) (ret : Int) (s : Stack) :
    runDispatch contReg oracle 0 ci oi ret s = (.outOfFuel, []) := rfl

theorem runDispatch_succ_term (contReg : Option (Nat → SwiftFn)) (oracle : Nat → OpOutcome)
    (fuel ci oi : Nat) (ret : Int) (s : Stack) (r : RunResult) (evs : List VMEvent)
    (h : planStep oracle oi s ret = .term r evs) :
    runDispatch contReg oracle (fuel+1) ci oi ret s = (r, evs) := by
  simp only [runDispatch, h]

theorem runDispatch_succ_resume (contFns : Nat → SwiftFn) (oracle : Nat → OpOutcome)
    (fuel ci oi : Nat) (ret : Int) (s : Stack) (ev : VMEvent) (ctx status : Int) (s1 : Stack)
    (h : planStep oracle oi s ret = .resume ev ctx status s1) :
    runDispatch (some contFns) oracle (fuel+1) ci oi ret s =
      ((runDispatch (some contFns) oracle fuel (ci+1) (oi+1)
          (contFns ci (contEntry s1 ctx status)).1
          (contFns ci (contEntry s1 ctx status)).2).1,
        ev :: .contInvoke ctx status ::
          (runDispatch (some contFns) oracle fuel (ci+1) (oi+1)
            (contFns ci (contEntry s1 ctx status)).1
            (contFns ci (contEntry s1 ctx status)).2).2) := by
  simp only [runDispatch, h]

theorem runDispatch_succ_resume_none (oracle : Nat → OpOutcome)
    (fuel ci oi : Nat) (ret : Int) (s : Stack) (ev : VMEvent) (ctx status : Int) (s1 : Stack)
    (h : planStep oracle oi s ret = .resume ev ctx status s1) :
    runDispatch none oracle (fuel+1) ci oi ret s = (.abortedNullCall, [ev]) := by
  simp only [runDispatch, h]

theorem planStep_term_cases (oracle : Nat → OpOutcome) (oi : Nat) (s : Stack) (ret : Int)
    (r : RunResult) (evs : List VMEvent) (h : planStep oracle oi s ret = .term r evs) :
    (r = .raised ∧ evs = [.raiseError]) ∨
    ((∃ n, r = .ret n) ∧ evs = []) ∨
    (r = .plainYielded ∧ ∃ n, evs = [.plainYield n]) ∨
    ((r = .calleeRaised ∨ r = .suspendedNoResume) ∧
      ∃ ev, evs = [ev] ∧ VMEvent.isSuspendOp ev = true) := by
  cases hh : handleClosureResult s ret <;> simp only [planStep, hh] at h
  case raiseError =>
    injection h with h1 h2
    exact Or.inl ⟨h1.symm, h2.symm⟩
  case retNormal n =>
    injection h with h1 h2
    exact Or.inr (Or.inl ⟨⟨n, h1.symm⟩, h2.symm⟩)
  case doPlainYield n sP =>
    injection h with h1 h2
    exact Or.inr (Or.inr (Or.inl ⟨h1.symm, n, h2.symm⟩))
  case doCallk nargs nret ctx sOp =>
    cases ho : oracle oi <;> simp only [ho] at h <;> cases h <;>
      simp [VMEvent.isSuspendOp]
  case doPcallk nargs nret msgh ctx sOp =>
    cases ho : oracle oi <;> simp only [ho] at h <;> cases h <;>
      simp [VMEvent.isSuspendOp]
  case doYieldk n ctx sOp =>
    cases ho : oracle oi <;> simp only [ho] at h <;> cases h <;>
      simp [VMEvent.isSuspendOp]

theorem planStep_resume_cases (oracle : Nat → OpOutcome) (oi : Nat) (s : Stack) (ret : Int)
    (ev : VMEvent) (ctx status : Int) (s1 : Stack)
    (h : planStep oracle oi s ret = .resume ev ctx status s1) :
    VMEvent.isSuspendOp ev = true ∧ VMEvent.isContInvoke ev = false ∧
      ev ≠ VMEvent.raiseError := by
  cases hh : handleClosureResult s ret <;> simp only [planStep, hh] at h
  case raiseError => cases h
  case retNormal n => cases h
  case doPlainYield n sP => cases h
  case doCallk nargs nret ctx2 sOp =>
    cases ho : oracle oi <;> simp only [ho] at h <;> cases h <;>
      simp [VMEvent.isSuspendOp, VMEvent.isContInvoke]
  case doPcallk nargs nret msgh ctx2 sOp =>
    cases ho : oracle oi <;> simp only [ho] at h <;> cases h <;>
      simp [VMEvent.isSuspendOp, VMEvent.isContInvoke]
  case doYieldk n ctx2 sOp =>
    cases ho : oracle oi <;> simp only [ho] at h <;> cases h <;>
      · simp [VMEvent.isSuspendOp, VMEvent.isContInvoke]

theorem runDispatch_raise_last (contReg : Option (Nat → SwiftFn)) (oracle : Nat → OpOutcome) :
    ∀ fuel ci oi ret s,
      VMEvent.raiseError ∈ (runDispatch contReg oracle fuel ci oi ret s).2 →
      (runDispatch contReg oracle fuel ci oi ret s).1 = .raised ∧
      ∃ pre, (runDispatch contReg oracle fuel ci oi ret s).2 = pre ++ [VMEvent.raiseError] ∧
        VMEvent.raiseError ∉ pre := by
  intro fuel
  induction fuel with
  | zero =>
    intro ci oi ret s hmem
    rw [runDispatch_zero] at hmem
    simp at hmem
  | succ fuel ih =>
    intro ci oi ret s hmem
    cases hplan : planStep oracle oi s ret with
    | term r evs =>
      rw [runDispatch_succ_term _ _ _ _ _ _ _ _ _ hplan] at hmem ⊢
      rcases planStep_term_cases _ _ _ _ _ _ hplan with
        ⟨hr, he⟩ | ⟨⟨n, hr⟩, he⟩ | ⟨hr, n, he⟩ | ⟨hr, ev, he, hs⟩
      · subst hr; subst he
        exact ⟨rfl, [], rfl, by simp⟩
      · subst he; simp at hmem
      · subst he; simp at hmem
      · subst he
        simp at hmem
        subst hmem
        simp [VMEvent.isSuspendOp] at hs
    | resume ev ctx status s1 =>
      cases contReg with
      | none =>
        rw [runDispatch_succ_resume_none _ _ _ _ _ _ _ _ _ _ hplan] at hmem ⊢
        simp at hmem
        subst hmem
        have := planStep_resume_cases _ _ _ _ _ _ _ _ hplan
        exact absurd rfl this.2.2
      | some contFns =>
        rw [runDispatch_succ_resume contFns _ _ _ _ _ _ _ _ _ _ hplan] at hmem ⊢
        have hev := planStep_resume_cases _ _ _ _ _ _ _ _ hplan
        rcases List.mem_cons.mp hmem with h1 | hmem2
        · exact absurd h1.symm hev.2.2
        rcases List.mem_cons.mp hmem2 with h2 | hmem3
        · cases h2
        obtain ⟨hres, pre, htr, hnp⟩ := ih _ _ _ _ hmem3
        refine ⟨hres, ev :: VMEvent.contInvoke ctx status :: pre, by rw [htr]; simp, ?_⟩
        intro hc
        rcases List.mem_cons.mp hc with h1 | hc2
        · exact hev.2.2 h1.symm
        rcases List.mem_cons.mp hc2 with h2 | hc3
        · cases h2
        · exact hnp hc3

theorem runDispatch_counts (contReg : Option (Nat → SwiftFn)) (oracle : Nat → OpOutcome) :
    ∀ fuel ci oi ret s,
      ((∃ n, (runDispatch contReg oracle fuel ci oi ret s).1 = .ret n) ∨
        (runDispatch contReg oracle fuel ci oi ret s).1 = .raised) →
      suspendCount (runDispatch contReg oracle fuel ci oi ret s).2
        = contInvokeCount (runDispatch contReg oracle fuel ci oi ret s).2 := by
  intro fuel
  induction fuel with
  | zero =>
    intro ci oi ret s hres
    rw [runDispatch_zero] at hres
    rcases hres with ⟨n, hn⟩ | hn <;> cases hn
  | succ fuel ih =>
    intro ci oi ret s hres
    cases hplan : planStep oracle oi s ret with
    | term r evs =>
      rw [runDispatch_succ_term _ _ _ _ _ _ _ _ _ hplan] at hres ⊢
      rcases planStep_term_cases _ _ _ _ _ _ hplan with
        ⟨hr, he⟩ | ⟨⟨n, hr⟩, he⟩ | ⟨hr, n, he⟩ | ⟨hr, ev, he, hs⟩
      · subst hr; subst he
        simp [suspendCount, contInvokeCount, VMEvent.isSuspendOp, VMEvent.isContInvoke]
      · subst he
        simp [suspendCount, contInvokeCount]
      · subst hr
        rcases hres with ⟨n2, hn⟩ | hn <;> cases hn
      · rcases hr with hr | hr <;> subst hr <;>
          (rcases hres with ⟨n2, hn⟩ | hn <;> cases hn)
    | resume ev ctx status s1 =>
      cases contReg with
      | none =>
        rw [runDispatch_succ_resume_none _ _ _ _ _ _ _ _ _ _ hplan] at hres ⊢
        rcases hres with ⟨n2, hn⟩ | hn <;> cases hn
      | some contFns =>
        rw [runDispatch_succ_resume contFns _ _ _ _ _ _ _ _ _ _ hplan] at hres ⊢
        have hev := planStep_resume_cases _ _ _ _ _ _ _ _ hplan
        have hrec := ih (ci+1) (oi+1)
          (contFns ci (contEntry s1 ctx status)).1 (contFns ci (contEntry s1 ctx status)).2
          hres
        simp only [suspendCount, contInvokeCount, List.countP_cons] at hrec ⊢
        rw [hev.1, hev.2.1]
        simp only [VMEvent.isSuspendOp, VMEvent.isContInvoke]
        omega

/-- Claim C1: for every dispatch of a foreign closure, if the closure returns
the Error outcome (sentinel LUASWIFT_CALLCLOSURE_ERROR) the trampoline signals
a VM-native error via lua_error and the frame ends raised with the raise as its
only event; handleClosureResult selects the raise action exactly for the Error
sentinel (the only VM-native raise point in dispatch); and whenever a raise
event occurs in a dispatch trace it is the last event of the trace and the
frame ends raised — no further native action of that frame follows it. -/
theorem luaswift_error_outcome_raises_last (contReg : Option (Nat → SwiftFn))
    (oracle : Nat → OpOutcome) :
    (∀ fuel ci oi s,
      runDispatch contReg oracle (fuel+1) ci oi LUASWIFT_CALLCLOSURE_ERROR s
        = (.raised, [.raiseError])) ∧
    (∀ s ret, handleClosureResult s ret = .raiseError ↔ ret = LUASWIFT_CALLCLOSURE_ERROR) ∧
    (∀ fuel ci oi ret s,
      VMEvent.raiseError ∈ (runDispatch contReg oracle fuel ci oi ret s).2 →
      (runDispatch contReg oracle fuel ci oi ret s).1 = .raised ∧
      ∃ pre, (runDispatch contReg oracle fuel ci oi ret s).2 = pre ++ [VMEvent.raiseError] ∧
        VMEvent.raiseError ∉ pre) := by
  refine ⟨?_, ?_, runDispatch_raise_last contReg oracle⟩
  · intro fuel ci oi s
    exact runDispatch_succ_term _ _ _ _ _ _ _ _ _ (planStep_raise _ _ _ _ (hcr_error_eq s))
  · intro s ret
    constructor
    · intro h
      by_contra hne
      by_cases h4 : ret = LUASWIFT_CALLCLOSURE_CALLK
      · subst h4; rw [hcr_callk_eq] at h; exact TrampAction.noConfusion h
      by_cases h3 : ret = LUASWIFT_CALLCLOSURE_PCALLK
      · subst h3; rw [hcr_pcallk_eq] at h; exact TrampAction.noConfusion h
      by_cases h5 : ret = LUASWIFT_CALLCLOSURE_YIELD
      · subst h5
        rw [hcr_yield_eq] at h
        split at h <;> exact TrampAction.noConfusion h
      · rw [hcr_return_eq s ret hne h4 h3 h5] at h
        exact TrampAction.noConfusion h
    · intro h
      subst h
      exact hcr_error_eq s

/-- Witness for C1: a concrete dispatch in which the closure returns the Error
sentinel; the frame ends raised and the raise is the final (sole) event. -/
theorem luaswift_error_outcome_raises_last_witness :
    (runDispatch (none : Option (Nat → SwiftFn)) (fun _ => OpOutcome.noResume) 1 0 0
        LUASWIFT_CALLCLOSURE_ERROR [LuaValue.integer 7]).1 = .raised ∧
    ∃ pre, (runDispatch (none : Option (Nat → SwiftFn)) (fun _ => OpOutcome.noResume) 1 0 0
        LUASWIFT_CALLCLOSURE_ERROR [LuaValue.integer 7]).2 = pre ++ [VMEvent.raiseError] ∧
      VMEvent.raiseError ∉ pre :=
  (luaswift_error_outcome_raises_last none (fun _ => OpOutcome.noResume)).2.2 1 0 0
    LUASWIFT_CALLCLOSURE_ERROR [LuaValue.integer 7] (by decide)

/-- Claim C2: for every ProtectedCall outcome dispatched by the trampoline with
a synchronous protected-call completion, the status (LUA_OK or the caught error
status) is delivered to the closure's continuation exactly once — the trace
shows a single contInvoke carrying that status — and is never itself propagated
as a raise by the trampoline: if the continuation returns a plain result count
the frame returns normally with no raise event, and a raise occurs afterwards
only if the continuation's own return is the Error outcome. -/
theorem luaswift_pcallk_status_once (contFns : Nat → SwiftFn) (oracle : Nat → OpOutcome)
    (fuel ci oi : Nat) (s s1 : Stack) (st : Int)
    (nargs nret msgh ctx : Int) (sOp : Stack)
    (hstep : handleClosureResult s LUASWIFT_CALLCLOSURE_PCALLK
      = .doPcallk nargs nret msgh ctx sOp)
    (horacle : oracle oi = .syncCaught st s1 ∨ (oracle oi = .syncComplete s1 ∧ st = LUA_OK)) :
    (0 ≤ (contFns ci (contEntry s1 ctx st)).1 →
      runDispatch (some contFns) oracle (fuel+2) ci oi LUASWIFT_CALLCLOSURE_PCALLK s =
        (.ret (contFns ci (contEntry s1 ctx st)).1,
         [.pcallk nargs nret msgh ctx, .contInvoke ctx st])) ∧
    ((contFns ci (contEntry s1 ctx st)).1 = LUASWIFT_CALLCLOSURE_ERROR →
      runDispatch (some contFns) oracle (fuel+2) ci oi LUASWIFT_CALLCLOSURE_PCALLK s =
        (.raised,
         [.pcallk nargs nret msgh ctx, .contInvoke ctx st, .raiseError])) := by
  have hplan : planStep oracle oi s LUASWIFT_CALLCLOSURE_PCALLK
      = .resume (.pcallk nargs nret msgh ctx) ctx st s1 := by
    rcases horacle with ho | ⟨ho, hst⟩
    · exact planStep_pcallk_caught _ _ _ _ _ _ _ _ _ _ _ hstep ho
    · subst hst
      exact planStep_pcallk_sync _ _ _ _ _ _ _ _ _ _ hstep ho
  constructor
  · intro hpos
    rw [runDispatch_succ_resume contFns _ _ _ _ _ _ _ _ _ _ hplan]
    rw [runDispatch_succ_term _ _ _ _ _ _ _ _ _
      (planStep_ret _ _ _ _ _ (hcr_return_of_nonneg _ _ hpos))]
  · intro herr
    rw [runDispatch_succ_resume contFns _ _ _ _ _ _ _ _ _ _ hplan, herr]
    rw [runDispatch_succ_term _ _ _ _ _ _ _ _ _
      (planStep_raise _ _ _ _ (hcr_error_eq _))]

/-- Witness for C2: a concrete protected call whose target raises
(status LUA_ERRRUN); the continuation receives the status exactly once and
returns 0 results, and the frame returns normally without any raise. -/
theorem luaswift_pcallk_status_once_witness :
    runDispatch (some (fun _ s => ((0 : Int), s)))
        (fun _ => OpOutcome.syncCaught LUA_ERRRUN []) 2 0 0
        LUASWIFT_CALLCLOSURE_PCALLK
        [LuaValue.nil, LuaValue.userdata, LuaValue.function,
         LuaValue.integer 0, LuaValue.integer 0]
      = (.ret 0, [.pcallk 0 0 0 2, .contInvoke 2 LUA_ERRRUN]) :=
  (luaswift_pcallk_status_once (fun _ s => ((0 : Int), s))
      (fun _ => OpOutcome.syncCaught LUA_ERRRUN []) 0 0 0
      _ [] LUA_ERRRUN 0 0 0 2 [LuaValue.nil, LuaValue.userdata, LuaValue.function]
      (by decide) (Or.inl rfl)).1 (by decide)

/-- Claim C3: for every Call outcome whose target call completes synchronously,
the trampoline invokes the closure's continuation exactly once, inline, with
Status = LUA_OK, and the VM stack at continuation entry is the caller's base
followed by the declared nresults result values (topped only by the two
protocol integers that continuation pushes). -/
theorem luaswift_callk_sync_once (contFns : Nat → SwiftFn) (oracle : Nat → OpOutcome)
    (fuel ci oi : Nat) (base : Stack) (func : LuaValue) (args results : Stack)
    (nargs nret : Int)
    (hargs : (args.length : Int) = nargs) (hres : (results.length : Int) = nret)
    (horacle : oracle oi = .syncComplete (base ++ results)) :
    contEntry (base ++ results) (base.length : Int) LUA_OK
      = (base ++ results) ++ [LuaValue.integer base.length, LuaValue.integer LUA_OK] ∧
    (0 ≤ (contFns ci (contEntry (base ++ results) (base.length : Int) LUA_OK)).1 →
      runDispatch (some contFns) oracle (fuel+2) ci oi LUASWIFT_CALLCLOSURE_CALLK
          ((base ++ func :: args) ++ [LuaValue.integer nargs, LuaValue.integer nret]) =
        (.ret (contFns ci (contEntry (base ++ results) (base.length : Int) LUA_OK)).1,
         [.callk nargs nret base.length, .contInvoke base.length LUA_OK])) := by
  refine ⟨rfl, ?_⟩
  intro hpos
  have hplan : planStep oracle oi
      ((base ++ func :: args) ++ [LuaValue.integer nargs, LuaValue.integer nret])
      LUASWIFT_CALLCLOSURE_CALLK
      = .resume (.callk nargs nret (base.length : Int)) (base.length : Int) LUA_OK
          (base ++ results) :=
    planStep_callk_sync _ _ _ _ _ _ _ _ _
      (hcr_callk_shape base func args nargs nret hargs) horacle
  rw [runDispatch_succ_resume contFns _ _ _ _ _ _ _ _ _ _ hplan]
  rw [runDispatch_succ_term _ _ _ _ _ _ _ _ _
    (planStep_ret _ _ _ _ _ (hcr_return_of_nonneg _ _ hpos))]

/-- Witness for C3: a concrete synchronous Call outcome with one declared
result; the continuation fires inline exactly once with LUA_OK and the result
value on top of the base. -/
theorem luaswift_callk_sync_once_witness :
    runDispatch (some (fun _ s => ((1 : Int), s)))
        (fun _ => OpOutcome.syncComplete [LuaValue.str "r"]) 2 0 0
        LUASWIFT_CALLCLOSURE_CALLK
        [LuaValue.function, LuaValue.integer 0, LuaValue.integer 1]
      = (.ret 1, [.callk 0 1 0, .contInvoke 0 LUA_OK]) :=
  (luaswift_callk_sync_once (fun _ s => ((1 : Int), s))
      (fun _ => OpOutcome.syncComplete [LuaValue.str "r"]) 0 0 0
      [] LuaValue.function [] [LuaValue.str "r"] 0 1
      (by decide) (by decide) rfl).2 (by decide)

/-- Claim C4: for every Yield outcome, if the closure supplied a continuation
(the full-userdata marker below the count), the trampoline rearranges the stack
so the continuation marker sits below the nresults yielded results (layout
base, nil message-handler slot, continuation object, results) and suspends via
lua_yieldk with a fresh ContinuationContext (the index of the continuation
slot) and the `continuation` entry; if no continuation was supplied it pops the
marker and performs a plain non-resumable lua_yield of nresults values. -/
theorem luaswift_yield_outcome_dispatch :
    (∀ (base results : Stack) (c : LuaValue) (n : Nat), results.length = n →
      c.typeTag = LUA_TUSERDATA →
      handleClosureResult ((base ++ results) ++ [c, LuaValue.integer n])
          LUASWIFT_CALLCLOSURE_YIELD
        = .doYieldk n ((base.length : Int) + 2) (base ++ ([LuaValue.nil, c] ++ results))) ∧
    (∀ (base results : Stack) (c : LuaValue) (n : Int), c.typeTag ≠ LUA_TUSERDATA →
      handleClosureResult ((base ++ results) ++ [c, LuaValue.integer n])
          LUASWIFT_CALLCLOSURE_YIELD
        = .doPlainYield n (base ++ results)) ∧
    (∀ (oracle : Nat → OpOutcome) (oi : Nat) (s : Stack) (n ctx st : Int) (sOp s1 : Stack),
      handleClosureResult s LUASWIFT_CALLCLOSURE_YIELD = .doYieldk n ctx sOp →
      oracle oi = OpOutcome.suspends st s1 →
      planStep oracle oi s LUASWIFT_CALLCLOSURE_YIELD = .resume (.yieldk n ctx) ctx st s1) ∧
    (∀ (oracle : Nat → OpOutcome) (oi : Nat) (s : Stack) (n : Int) (sP : Stack),
      handleClosureResult s LUASWIFT_CALLCLOSURE_YIELD = .doPlainYield n sP →
      planStep oracle oi s LUASWIFT_CALLCLOSURE_YIELD = .term .plainYielded [.plainYield n]) := by
  refine ⟨?_, ?_, ?_, ?_⟩
  · intro base results c n hres hud
    exact hcr_yield_ud_shape base results c n hres hud
  · intro base results c n hud
    exact hcr_yield_plain_shape base results c n hud
  · intro oracle oi s n ctx st sOp s1 h ho
    exact planStep_yieldk_suspends _ _ _ _ _ _ _ _ _ h ho
  · intro oracle oi s n sP h
    exact planStep_plain_yield _ _ _ _ _ _ h

/-- Witness for C4: a concrete Yield outcome with one result and a userdata
continuation marker; the stack is rearranged to nil, continuation, result and
lua_yieldk is invoked with context index 2. -/
theorem luaswift_yield_outcome_dispatch_witness :
    handleClosureResult [LuaValue.integer 3, LuaValue.userdata, LuaValue.integer 1]
        LUASWIFT_CALLCLOSURE_YIELD
      = .doYieldk 1 2 [LuaValue.nil, LuaValue.userdata, LuaValue.integer 3] :=
  luaswift_yield_outcome_dispatch.1 [] [LuaValue.integer 3] LuaValue.userdata 1
    (by decide) (by decide)

/-- Claim C5: for every run of the dispatch loop that ends in a terminal Return
or Error outcome, the number of suspending VM operations invoked (Call,
ProtectedCall, resumable Yield) equals the number of continuation invocations:
N chained suspending outcomes produce exactly N continuation invocations before
the terminal outcome, at arbitrary depth. -/
theorem luaswift_chained_suspension_count (contReg : Option (Nat → SwiftFn))
    (oracle : Nat → OpOutcome) (fuel ci oi : Nat) (ret : Int) (s : Stack)
    (hterm : (∃ n, (runDispatch contReg oracle fuel ci oi ret s).1 = .ret n) ∨
      (runDispatch contReg oracle fuel ci oi ret s).1 = .raised) :
    suspendCount (runDispatch contReg oracle fuel ci oi ret s).2
      = contInvokeCount (runDispatch contReg oracle fuel ci oi ret s).2 :=
  runDispatch_counts contReg oracle fuel ci oi ret s hterm

/-- Witness for C5: a concrete chain of two suspending outcomes (a synchronous
Call, then a resumable Yield from the continuation) ending in Return; the trace
contains exactly two suspending operations and two continuation invocations. -/
theorem luaswift_chained_suspension_count_witness :
    suspendCount (runDispatch
        (some (fun i s => if i = 0
          then ((LUASWIFT_CALLCLOSURE_YIELD : Int),
                [LuaValue.userdata, LuaValue.integer 0])
          else ((0 : Int), s)))
        (fun i => if i = 0 then OpOutcome.syncComplete []
          else OpOutcome.suspends LUA_YIELD_STATUS []) 3 0 0
        LUASWIFT_CALLCLOSURE_CALLK
        [LuaValue.function, LuaValue.integer 0, LuaValue.integer 0]).2
      = contInvokeCount (runDispatch
        (some (fun i s => if i = 0
          then ((LUASWIFT_CALLCLOSURE_YIELD : Int),
                [LuaValue.userdata, LuaValue.integer 0])
          else ((0 : Int), s)))
        (fun i => if i = 0 then OpOutcome.syncComplete []
          else OpOutcome.suspends LUA_YIELD_STATUS []) 3 0 0
        LUASWIFT_CALLCLOSURE_CALLK
        [LuaValue.function, LuaValue.integer 0, LuaValue.integer 0]).2 :=
  luaswift_chained_suspension_count _ _ 3 0 0 LUASWIFT_CALLCLOSURE_CALLK
    [LuaValue.function, LuaValue.integer 0, LuaValue.integer 0]
    (Or.inl ⟨0, by decide⟩)

/-- Claim C6: for every suspending outcome the ContinuationContext is an
integer VM-stack index, not an address: for Call it is the index of the slot
below the pushed function (computed from the stack depth after the function,
the arguments and the protocol integers have been accounted for), for
ProtectedCall the index of the continuation slot above the optional message
handler, for resumable Yield the index of the continuation object after the
stack rearrangement; and on resumption the trampoline decodes the context back
into a stack index and passes it, pushed as an integer together with the
resumption Status, to the closure's continuation half. -/
theorem luaswift_continuation_context_is_stack_index :
    (∀ (base : Stack) (func : LuaValue) (args : Stack) (nargs nret : Int),
      (args.length : Int) = nargs →
      handleClosureResult ((base ++ func :: args) ++ [LuaValue.integer nargs,
          LuaValue.integer nret]) LUASWIFT_CALLCLOSURE_CALLK
        = .doCallk nargs nret (base.length : Int) (base ++ func :: args)) ∧
    (∀ (base : Stack) (m c func : LuaValue) (args : Stack) (nargs nret : Int),
      (args.length : Int) = nargs →
      handleClosureResult ((base ++ [m, c] ++ func :: args) ++ [LuaValue.integer nargs,
          LuaValue.integer nret]) LUASWIFT_CALLCLOSURE_PCALLK
        = .doPcallk nargs nret
            (if m.typeTag = LUA_TFUNCTION then (base.length : Int) + 1 else 0)
            ((base.length : Int) + 2) (base ++ [m, c] ++ func :: args)) ∧
    (∀ (base results : Stack) (c : LuaValue) (n : Nat), results.length = n →
      c.typeTag = LUA_TUSERDATA →
      handleClosureResult ((base ++ results) ++ [c, LuaValue.integer n])
          LUASWIFT_CALLCLOSURE_YIELD
        = .doYieldk n ((base.length : Int) + 2) (base ++ ([LuaValue.nil, c] ++ results))) ∧
    (∀ (contFns : Nat → SwiftFn) (oracle : Nat → OpOutcome) (fuel ci oi : Nat) (ret : Int)
        (s : Stack) (ev : VMEvent) (ctx status : Int) (s1 : Stack),
      planStep oracle oi s ret = .resume ev ctx status s1 →
      runDispatch (some contFns) oracle (fuel+1) ci oi ret s =
        ((runDispatch (some contFns) oracle fuel (ci+1) (oi+1)
            (contFns ci (s1 ++ [LuaValue.integer ctx, LuaValue.integer status])).1
            (contFns ci (s1 ++ [LuaValue.integer ctx, LuaValue.integer status])).2).1,
          ev :: .contInvoke ctx status ::
            (runDispatch (some contFns) oracle fuel (ci+1) (oi+1)
              (contFns ci (s1 ++ [LuaValue.integer ctx, LuaValue.integer status])).1
              (contFns ci (s1 ++ [LuaValue.integer ctx, LuaValue.integer status])).2).2)) := by
  refine ⟨?_, ?_, ?_, ?_⟩
  · intro base func args nargs nret hargs
    exact hcr_callk_shape base func args nargs nret hargs
  · intro base m c func args nargs nret hargs
    exact hcr_pcallk_shape base m c func args nargs nret hargs
  · intro base results c n hres hud
    exact hcr_yield_ud_shape base results c n hres hud
  · intro contFns oracle fuel ci oi ret s ev ctx status s1 h
    exact runDispatch_succ_resume contFns oracle fuel ci oi ret s ev ctx status s1 h

/-- Witness for C6: a concrete Call outcome with no arguments on an otherwise
empty frame; the ContinuationContext is the stack index 0 (the slot below the
function). -/
theorem luaswift_continuation_context_is_stack_index_witness :
    handleClosureResult [LuaValue.function, LuaValue.integer 0, LuaValue.integer 0]
        LUASWIFT_CALLCLOSURE_CALLK
      = .doCallk 0 0 0 [LuaValue.function] :=
  luaswift_continuation_context_is_stack_index.1 [] LuaValue.function [] 0 0 (by decide)

/-- Counterexample to C7 as stated: on a pre-5.4 VM, a luaswift_setinc request
with a nonzero stepsize — a field structurally unsupported there (Lua 5.3 has
no way to set the GC step size) — does not return LUASWIFT_GCUNSUPPORTED: it
returns LUASWIFT_GCINC, and when pause is also requested it mutates the GC
state despite the unsupported field, silently ignoring stepsize. -/
theorem luaswift_gc_unsupported_counterexample :
    (luaswift_setinc .pre54
        { mode := LUASWIFT_GCINC, minormul := 0, majormul := 0, minorMajorMul := 0,
          majorMinorMul := 0, pause := 0, stepmul := 0, stepsize := 0 } 0 0 5).1
      = LUASWIFT_GCINC ∧
    LUASWIFT_GCINC ≠ LUASWIFT_GCUNSUPPORTED ∧
    (luaswift_setinc .pre54
        { mode := LUASWIFT_GCINC, minormul := 0, majormul := 0, minorMajorMul := 0,
          majorMinorMul := 0, pause := 0, stepmul := 0, stepsize := 0 } 200 0 5).2.pause
      = 200 := by
  refine ⟨rfl, by decide, rfl⟩

/-- Claim C7 as amended: luaswift_setgen returns LUASWIFT_GCUNSUPPORTED with no
mutation of GC state whenever the requested combination is structurally
unsupported (always before 5.4; on 5.4 when a minor-major or major-minor
threshold is requested; after 5.4 when a major multiplier is requested); but
luaswift_setinc on a pre-5.4 VM silently ignores a requested stepsize — it
applies pause and stepmul as far as the version allows and returns
LUASWIFT_GCINC rather than the unsupported marker. -/
theorem luaswift_gc_unsupported_amended :
    (∀ (g : GCState) (a b c d : Int),
      luaswift_setgen .pre54 g a b c d = (LUASWIFT_GCUNSUPPORTED, g)) ∧
    (∀ (g : GCState) (a b c d : Int), c ≠ 0 ∨ d ≠ 0 →
      luaswift_setgen .v54 g a b c d = (LUASWIFT_GCUNSUPPORTED, g)) ∧
    (∀ (g : GCState) (a b c d : Int), b ≠ 0 →
      luaswift_setgen .post54 g a b c d = (LUASWIFT_GCUNSUPPORTED, g)) ∧
    (∀ (g : GCState) (p m z : Int),
      luaswift_setinc .pre54 g p m z = luaswift_setinc .pre54 g p m 0 ∧
      (luaswift_setinc .pre54 g p m z).1 = LUASWIFT_GCINC) := by
  refine ⟨?_, ?_, ?_, ?_⟩
  · intro g a b c d
    rfl
  · intro g a b c d h
    simp only [luaswift_setgen]
    rw [if_pos h]
  · intro g a b c d h
    simp only [luaswift_setgen]
    rw [if_pos h]
  · intro g p m z
    exact ⟨rfl, rfl⟩

/-- Witness for amended C7: a 5.4 generational request with a nonzero
minor-major threshold returns the unsupported marker and leaves the state
untouched. -/
theorem luaswift_gc_unsupported_amended_witness :
    luaswift_setgen .v54
        { mode := LUASWIFT_GCINC, minormul := 0, majormul := 0, minorMajorMul := 0,
          majorMinorMul := 0, pause := 0, stepmul := 0, stepsize := 0 } 20 100 50 0
      = (LUASWIFT_GCUNSUPPORTED,
         { mode := LUASWIFT_GCINC, minormul := 0, majormul := 0, minorMajorMul := 0,
           majorMinorMul := 0, pause := 0, stepmul := 0, stepsize := 0 }) :=
  luaswift_gc_unsupported_amended.2.1
    { mode := LUASWIFT_GCINC, minormul := 0, majormul := 0, minorMajorMul := 0,
      majorMinorMul := 0, pause := 0, stepmul := 0, stepsize := 0 } 20 100 50 0
    (Or.inl (by decide))

/-- Claim C8: the generic iteration helper repeatedly invokes the iterator
function with (state, key) through a plain unprotected native call (an iterator
raise propagates, nothing here catches it), stops when the returned key is nil,
otherwise delivers (key, value) to the per-iteration closure and interprets its
result as exactly one of continue-with-updated-key (1), stop (0), or error
(LUASWIFT_CALLCLOSURE_ERROR, propagated via lua_error); and on the spec's
example — an iterator yielding (1, "a"), (2, "b"), nil with a closure stopping
after the first pair — exactly one pair is delivered and the loop terminates
without error. -/
theorem luaswift_do_for_pairs_contract :
    (∀ iterfn block (fuel i : Nat) state k v, iterfn state k = some (LuaValue.nil, v) →
      luaswift_do_for_pairs iterfn block (fuel+1) i state k = (.done, [])) ∧
    (∀ iterfn block (fuel i : Nat) state k, iterfn state k = none →
      luaswift_do_for_pairs iterfn block (fuel+1) i state k = (.iterRaised, [])) ∧
    (∀ iterfn block (fuel i : Nat) state k k1 v, iterfn state k = some (k1, v) →
      k1 ≠ LuaValue.nil → (block i k1 v).1 = 1 →
      luaswift_do_for_pairs iterfn block (fuel+1) i state k =
        ((luaswift_do_for_pairs iterfn block fuel (i+1) state (block i k1 v).2).1,
          (k1, v) :: (luaswift_do_for_pairs iterfn block fuel (i+1) state (block i k1 v).2).2)) ∧
    (∀ iterfn block (fuel i : Nat) state k k1 v, iterfn state k = some (k1, v) →
      k1 ≠ LuaValue.nil → (block i k1 v).1 = 0 →
      luaswift_do_for_pairs iterfn block (fuel+1) i state k = (.done, [(k1, v)])) ∧
    (∀ iterfn block (fuel i : Nat) state k k1 v, iterfn state k = some (k1, v) →
      k1 ≠ LuaValue.nil → (block i k1 v).1 = LUASWIFT_CALLCLOSURE_ERROR →
      luaswift_do_for_pairs iterfn block (fuel+1) i state k = (.raisedError, [(k1, v)])) ∧
    luaswift_do_for_pairs demoIter demoBlock 4 0 LuaValue.table LuaValue.nil
      = (.done, [(LuaValue.integer 1, LuaValue.str "a")]) := by
  refine ⟨?_, ?_, ?_, ?_, ?_, by decide⟩
  · intro iterfn block fuel i state k v hit
    simp [luaswift_do_for_pairs, hit]
  · intro iterfn block fuel i state k hit
    simp [luaswift_do_for_pairs, hit]
  · intro iterfn block fuel i state k k1 v hit hk hb
    simp only [luaswift_do_for_pairs, hit, if_neg hk, hb]
    simp
  · intro iterfn block fuel i state k k1 v hit hk hb
    simp only [luaswift_do_for_pairs, hit, if_neg hk, hb]
    simp
  · intro iterfn block fuel i state k k1 v hit hk hb
    simp only [luaswift_do_for_pairs, hit, if_neg hk, hb]
    rw [if_neg (by decide), if_neg (by decide)]
    simp

/-- Witness for C8: the stop clause applied to the spec's example iterator and
closure at the first pair. -/
theorem luaswift_do_for_pairs_contract_witness :
    luaswift_do_for_pairs demoIter demoBlock 4 0 LuaValue.table LuaValue.nil
      = (.done, [(LuaValue.integer 1, LuaValue.str "a")]) :=
  luaswift_do_for_pairs_contract.2.2.2.1 demoIter demoBlock 3 0 LuaValue.table LuaValue.nil
    (LuaValue.integer 1) (LuaValue.str "a") (by decide) (by decide) (by decide)

/-- Claim C9: for every dispatch in which the Registry lookup for the
foreign-closure invoker fails, the trampoline fails immediately — the NULL
function pointer lua_tocfunction produced is invoked at once, a trap (modelled
as abortedNullCall) — with no VM operation performed and no attempt to continue
dispatch; the same holds for a Registry miss of the continuation invoker at a
continuation entry. -/
theorem luaswift_registry_miss_aborts :
    (∀ (contReg : Option (Nat → SwiftFn)) (oracle : Nat → OpOutcome) (fuel : Nat) (s : Stack),
      luaswift_callclosurewrapper none contReg oracle fuel s = (.abortedNullCall, [])) ∧
    (∀ (oracle : Nat → OpOutcome) (fuel ci oi : Nat) (ret : Int) (s : Stack) (ev : VMEvent)
        (ctx status : Int) (s1 : Stack),
      planStep oracle oi s ret = .resume ev ctx status s1 →
      runDispatch none oracle (fuel+1) ci oi ret s = (.abortedNullCall, [ev])) := by
  refine ⟨?_, ?_⟩
  · intro contReg oracle fuel s
    rfl
  · intro oracle fuel ci oi ret s ev ctx status s1 h
    exact runDispatch_succ_resume_none oracle fuel ci oi ret s ev ctx status s1 h

/-- Witness for C9: a continuation-Registry miss at a concrete synchronous Call
outcome aborts the dispatch immediately after the call event. -/
theorem luaswift_registry_miss_aborts_witness :
    runDispatch none (fun _ => OpOutcome.syncComplete []) 1 0 0
        LUASWIFT_CALLCLOSURE_CALLK
        [LuaValue.function, LuaValue.integer 0, LuaValue.integer 0]
      = (.abortedNullCall, [.callk 0 0 0]) :=
  luaswift_registry_miss_aborts.2 (fun _ => OpOutcome.syncComplete []) 0 0 0
    LUASWIFT_CALLCLOSURE_CALLK
    [LuaValue.function, LuaValue.integer 0, LuaValue.integer 0]
    (.callk 0 0 0) 0 LUA_OK [] rfl

/-- Claim C10: in the Yield outcome's stack protocol the marker slot sits
directly below the result-count integer; after popping the count the trampoline
treats the yield as resumable if and only if that slot holds a full userdata
(type tag LUA_TUSERDATA, the continuation object): then it suspends via
lua_yieldk with the rearranged stack, while a value of any other type in the
marker slot is silently popped and a plain non-resumable lua_yield of nresults
values is performed instead. -/
theorem luaswift_yield_marker_userdata_iff (base results : Stack) (c : LuaValue) (n : Nat)
    (hres : results.length = n) :
    handleClosureResult ((base ++ results) ++ [c, LuaValue.integer n])
        LUASWIFT_CALLCLOSURE_YIELD
      = if c.typeTag = LUA_TUSERDATA
        then .doYieldk n ((base.length : Int) + 2) (base ++ ([LuaValue.nil, c] ++ results))
        else .doPlainYield n (base ++ results) := by
  by_cases hud : c.typeTag = LUA_TUSERDATA
  · rw [if_pos hud]
    exact hcr_yield_ud_shape base results c n hres hud
  · rw [if_neg hud]
    exact hcr_yield_plain_shape base results c n hud

/-- Witness for C10: a light userdata in the marker slot is not a continuation
marker: it is popped and a plain yield of the single result is performed. -/
theorem luaswift_yield_marker_userdata_iff_witness :
    handleClosureResult [LuaValue.integer 5, LuaValue.lightuserdata, LuaValue.integer 1]
        LUASWIFT_CALLCLOSURE_YIELD
      = .doPlainYield 1 [LuaValue.integer 5] := by
  have h := luaswift_yield_marker_userdata_iff [] [LuaValue.integer 5]
    LuaValue.lightuserdata 1 (by decide)
  rw [if_neg (by decide)] at h
  exact h

end LuaSwift
